import Mathlib

/-!
Shallow embedding of the gesture-driven particle choreography engine of the
Interactive-Christmas-Tree repository, and proofs of its specified
properties.  The embedded pieces are: the hand-openness classifier and the
detection loop of `VisionManager`, the camera rig (`GestureController` in
`App.tsx`), the distribution generators (`getChaosPos`, `getTreePos` and the
foliage loop in `ParticleTree`), the morph state of `LuxuryTree`, the
threshold-gated instance choreography (`GiftBox`, `OrnamentInstance`,
`SinglePolaroid`) and the photo-slot binding of `Polaroids`.

Numeric values carried by the ticks are modelled as rationals where the code
is pure arithmetic, and as reals where the code calls `Math.sqrt`,
`Math.cbrt`, trigonometric functions or `Math.atan2`.
-/

namespace ChristmasTree

/-- `THREE.MathUtils.lerp x y t = x + (y - x) * t`.  Note that three.js does
not clamp `t`: for `t > 1` the result overshoots past `y`. -/
def lerp {α : Type} [Field α] (x y t : α) : α := x + (y - x) * t

/-! ## Morph state (`LuxuryTree` in `ParticleTree`)

Per frame: `target = isHandOpen ? 1 : 0` and
`progressRef.current = THREE.MathUtils.lerp(progressRef.current, target, delta * 2.0)`.
-/

/-- The morph target selected from the discrete gesture state. -/
def morphTarget (gestureOpen : Bool) : ℚ := if gestureOpen then 1 else 0

/-- One tick of the morph-progress update of `LuxuryTree`'s `useFrame`. -/
def morphStep (p : ℚ) (gestureOpen : Bool) (delta : ℚ) : ℚ :=
  lerp p (morphTarget gestureOpen) (delta * 2)

/-- Run a sequence of ticks; each tick carries the gesture flag and the frame
delta for that tick. -/
def morphRun : List (Bool × ℚ) → ℚ → ℚ
  | [], p => p
  | (g, dt) :: ticks, p => morphRun ticks (morphStep p g dt)

theorem morphStep_bounds (p : ℚ) (g : Bool) (dt : ℚ)
    (hp0 : 0 ≤ p) (hp1 : p ≤ 1) (h0 : 0 ≤ dt) (h1 : dt * 2 ≤ 1) :
    0 ≤ morphStep p g dt ∧ morphStep p g dt ≤ 1 := by
  unfold morphStep lerp morphTarget
  cases g <;> simp only [if_true, if_false, Bool.false_eq_true] <;>
    constructor <;> nlinarith

theorem morphRun_bounds (ticks : List (Bool × ℚ)) :
    ∀ p : ℚ, 0 ≤ p → p ≤ 1 →
      (∀ td ∈ ticks, 0 ≤ td.2 ∧ td.2 * 2 ≤ 1) →
      0 ≤ morphRun ticks p ∧ morphRun ticks p ≤ 1 := by
  induction ticks with
  | nil => intro p hp0 hp1 _; exact ⟨hp0, hp1⟩
  | cons td rest ih =>
      intro p hp0 hp1 h
      obtain ⟨g, dt⟩ := td
      have hd := h (g, dt) (List.mem_cons_self _ _)
      have hs := morphStep_bounds p g dt hp0 hp1 hd.1 hd.2
      exact ih (morphStep p g dt) hs.1 hs.2
        (fun td' h' => h td' (List.mem_cons_of_mem _ h'))

/-- Claim C1, counterexample: the claim as stated fails on the code.  A single
tick with the admissible (non-negative) frame delta `dt = 1` and the gesture
open drives the stored progress from `0` to `2`, outside `[0, 1]`, because
`THREE.MathUtils.lerp` does not clamp its interpolation parameter. -/
theorem morphProgress_overshoot_cex :
    0 ≤ (1 : ℚ) ∧
      ¬ (0 ≤ morphRun [(true, 1)] 0 ∧ morphRun [(true, 1)] 0 ≤ 1) := by
  constructor
  · norm_num
  · intro h
    have hval : morphRun [(true, 1)] 0 = 2 := by
      norm_num [morphRun, morphStep, lerp, morphTarget]
    rw [hval] at h
    exact absurd h.2 (by norm_num)

/-- Claim C1 (amended): for every sequence of ticks whose frame deltas satisfy
`0 ≤ dt` and `dt * 2 ≤ 1` (i.e. `dt·k2 ≤ 1` with `k2 = 2.0`), and arbitrary
gesture inputs, the stored morph-progress scalar starting at `0` always
satisfies `0 ≤ progress ≤ 1`.  Without the delta bound the update overshoots,
since the code's `lerp` is unclamped. -/
theorem morphProgress_unit_interval (ticks : List (Bool × ℚ))
    (h : ∀ td ∈ ticks, 0 ≤ td.2 ∧ td.2 * 2 ≤ 1) :
    0 ≤ morphRun ticks 0 ∧ morphRun ticks 0 ≤ 1 :=
  morphRun_bounds ticks 0 le_rfl zero_le_one h

/-- Witness for claim C1: a concrete admissible tick sequence (open for one
60 Hz frame, then closed for a quarter-second frame) keeps progress in
`[0, 1]`. -/
theorem morphProgress_unit_interval_witness :
    0 ≤ morphRun [(true, 1/60), (false, 1/4)] 0 ∧
      morphRun [(true, 1/60), (false, 1/4)] 0 ≤ 1 :=
  morphProgress_unit_interval [(true, 1/60), (false, 1/4)]
    (by norm_num [List.forall_mem_cons])

/-- Closed form of the progress after `n` ticks with the gesture held open at
a fixed frame delta. -/
theorem morphRun_replicate_open (dt : ℚ) (n : ℕ) :
    ∀ p : ℚ, morphRun (List.replicate n (true, dt)) p =
      1 - (1 - dt * 2) ^ n * (1 - p) := by
  induction n with
  | zero => intro p; simp [morphRun]
  | succ n ih =>
      intro p
      rw [List.replicate_succ]
      show morphRun (List.replicate n (true, dt)) (morphStep p true dt) = _
      rw [ih]
      unfold morphStep lerp morphTarget
      simp only [if_true]
      ring

/-- Claim C9: starting from `progress = 0` with the gesture open and held for
180 ticks at `dt = 1/60` (3 seconds at 60 ticks/s, `k2 = 2.0`), the morph
progress reaches at least `0.997`. -/
theorem morphProgress_after_3s :
    997/1000 ≤ morphRun (List.replicate 180 (true, 1/60)) 0 := by
  rw [morphRun_replicate_open]
  norm_num

/-! ## Landmark classifier (`isHandOpen` and `predictWebcam` in `VisionManager`)

A hand sample is the 21 normalized landmarks of one detected hand.  The
classifier's comparisons are `Float` arithmetic in the source; they are
embedded generically over a linear ordered field so that the order-theoretic
statements cover both the executable rational model and the real model used
by the camera rig.
-/

/-- One normalized hand landmark (`x, y` screen-normalized, `z` relative
depth). -/
structure Landmark (α : Type) where
  x : α
  y : α
  z : α

/-- The local `distSq` of `isHandOpen`: squared distance in the x-y screen
plane only.  The source reads only `.x` and `.y`; `z` is ignored. -/
def distSq {α : Type} [Field α] (p1 p2 : Landmark α) : α :=
  (p1.x - p2.x) ^ 2 + (p1.y - p2.y) ^ 2

/-- The four checked fingers as (tip, pip) landmark-index pairs: index
(8, 6), middle (12, 10), ring (16, 14), pinky (20, 18). -/
def fingerIndices : List (Fin 21 × Fin 21) :=
  [(8, 6), (12, 10), (16, 14), (20, 18)]

/-- `isHandOpen` from `VisionManager`: count the fingers whose tip is
strictly farther (in squared x-y distance) from the wrist (landmark 0) than
that finger's PIP joint, and report open when at least 3 are. -/
def isHandOpen {α : Type} [LinearOrderedField α]
    (landmarks : Fin 21 → Landmark α) : Bool :=
  let wrist := landmarks 0
  let openFingers : ℕ := fingerIndices.foldl
    (fun acc finger =>
      if distSq wrist (landmarks finger.1) > distSq wrist (landmarks finger.2)
      then acc + 1 else acc) 0
  decide (3 ≤ openFingers)

/-- Spec-side predicate: finger with tip landmark `tip` and PIP landmark
`pip` counts as extended. -/
def fingerExtended {α : Type} [LinearOrderedField α]
    (landmarks : Fin 21 → Landmark α) (tip pip : Fin 21) : Prop :=
  distSq (landmarks 0) (landmarks tip) > distSq (landmarks 0) (landmarks pip)

/-- Spec-side predicate: at least three of four conditions hold. -/
def atLeastThree (a b c d : Prop) : Prop :=
  (a ∧ b ∧ c) ∨ (a ∧ b ∧ d) ∨ (a ∧ c ∧ d) ∨ (b ∧ c ∧ d)

/-- Claim C2: the openness classifier returns `true` iff at least 3 of the
four fingers (index, middle, ring, pinky) have squared wrist-to-tip distance
strictly greater than squared wrist-to-PIP distance.  Determinism on a fixed
sample is immediate: `isHandOpen` is embedded as a pure function of the
landmarks. -/
theorem isHandOpen_iff_three_extended {α : Type} [LinearOrderedField α]
    (landmarks : Fin 21 → Landmark α) :
    isHandOpen landmarks = true ↔
      atLeastThree (fingerExtended landmarks 8 6) (fingerExtended landmarks 12 10)
        (fingerExtended landmarks 16 14) (fingerExtended landmarks 20 18) := by
  by_cases h1 : distSq (landmarks 0) (landmarks 8) > distSq (landmarks 0) (landmarks 6) <;>
    by_cases h2 : distSq (landmarks 0) (landmarks 12) > distSq (landmarks 0) (landmarks 10) <;>
    by_cases h3 : distSq (landmarks 0) (landmarks 16) > distSq (landmarks 0) (landmarks 14) <;>
    by_cases h4 : distSq (landmarks 0) (landmarks 20) > distSq (landmarks 0) (landmarks 18) <;>
    simp [isHandOpen, fingerIndices, fingerExtended, atLeastThree, h1, h2, h3, h4]

/-- Claim C10: the openness classifier is computed in 2D screen space only.
Two hand samples agreeing on every landmark's `x` and `y` but with arbitrary
`z` values classify identically. -/
theorem isHandOpen_ignores_depth {α : Type} [LinearOrderedField α]
    (lm1 lm2 : Fin 21 → Landmark α)
    (h : ∀ i, (lm1 i).x = (lm2 i).x ∧ (lm1 i).y = (lm2 i).y) :
    isHandOpen lm1 = isHandOpen lm2 := by
  have hd : ∀ i j : Fin 21, distSq (lm1 i) (lm1 j) = distSq (lm2 i) (lm2 j) := by
    intro i j
    unfold distSq
    rw [(h i).1, (h i).2, (h j).1, (h j).2]
  unfold isHandOpen
  simp only [fingerIndices, List.foldl, hd]

/-- A sample with all landmarks on the x-axis at depth 0. -/
def sampleFlat : Fin 21 → Landmark ℚ := fun i => ⟨(i : ℕ), 0, 0⟩

/-- The same sample displaced to depth `z = 1` at every landmark. -/
def sampleDeep : Fin 21 → Landmark ℚ := fun i => ⟨(i : ℕ), 0, 1⟩

/-- Witness for claim C10: the classifier agrees on two concrete samples
that differ in every landmark's depth. -/
theorem isHandOpen_ignores_depth_witness :
    isHandOpen sampleFlat = isHandOpen sampleDeep :=
  isHandOpen_ignores_depth sampleFlat sampleDeep (fun _ => ⟨rfl, rfl⟩)

/-! ## Detection cycle output (`predictWebcam` in `VisionManager`)

Each detection cycle the loop either receives one hand's landmarks or none,
and always writes one `GestureSignal` to the store (`setHandPosition`).
-/

/-- The shared gesture signal, as stored by `useTreeStore`. -/
structure GestureSignal where
  handX : ℝ
  handY : ℝ
  handZ : ℝ
  isTracking : Bool
  isHandOpen : Bool

/-- One detection cycle of `predictWebcam`: with a hand, emit the mirrored
center position, the wrist-to-center distance as depth proxy, and the
openness classification; with no hand, emit the fixed neutral signal
`(0.5, 0.5, 0.5)`, untracked, closed.  A signal is emitted in both cases. -/
noncomputable def classifyDetection
    (result : Option (Fin 21 → Landmark ℝ)) : GestureSignal :=
  match result with
  | some landmarks =>
      let center := landmarks 9
      let wrist := landmarks 0
      let dx := center.x - wrist.x
      let dy := center.y - wrist.y
      { handX := 1 - center.x
        handY := center.y
        handZ := Real.sqrt (dx * dx + dy * dy)
        isTracking := true
        isHandOpen := isHandOpen landmarks }
  | none =>
      { handX := 1/2, handY := 1/2, handZ := 1/2
        isTracking := false, isHandOpen := false }

/-- Claim C7: a detection cycle with no hand emits a normal signal — exactly
`(0.5, 0.5, 0.5)`, `tracked = false`, `open = false` — never an exception and
never a skipped update (the embedding of the cycle is a total function that
produces a signal for every input). -/
theorem classifyDetection_no_hand :
    classifyDetection none =
      { handX := 1/2, handY := 1/2, handZ := 1/2
        isTracking := false, isHandOpen := false } := rfl

/-! ## Camera rig (`GestureController` in `App.tsx`)

State: the live camera position and the rig's `currentPos` / `targetPos`
refs.  When `isTracking` the rig computes a spherical target from the hand
signal, lerps `currentPos` toward it and copies it to the camera; when
untracked it leaves the camera alone and snaps `currentPos` to the live
camera position.  (`camera.lookAt` only changes orientation and is not part
of the positional state.)
-/

/-- A 3-component vector, as `THREE.Vector3`. -/
structure Vec3 (α : Type) where
  x : α
  y : α
  z : α

/-- `THREE.Vector3.lerp`, componentwise unclamped lerp. -/
def lerpVec3 {α : Type} [Field α] (v w : Vec3 α) (t : α) : Vec3 α :=
  ⟨lerp v.x w.x t, lerp v.y w.y t, lerp v.z w.z t⟩

/-- `THREE.MathUtils.clamp value lo hi = max lo (min hi value)`. -/
def clamp {α : Type} [LinearOrder α] (value lo hi : α) : α :=
  max lo (min hi value)

/-- `THREE.MathUtils.mapLinear`. -/
def mapLinear {α : Type} [Field α] (x a1 a2 b1 b2 : α) : α :=
  b1 + (x - a1) * (b2 - b1) / (a2 - a1)

/-- The positional state of the camera rig. -/
structure CameraState where
  cameraPos : Vec3 ℝ
  currentPos : Vec3 ℝ
  targetPos : Vec3 ℝ

/-- One `useFrame` tick of `GestureController`. -/
noncomputable def gestureControllerStep (s : CameraState) (g : GestureSignal)
    (delta : ℝ) : CameraState :=
  if g.isTracking then
    let azimuth := (g.handX - 1/2) * (5/2)
    let elevation := lerp 8 (-2) g.handY
    let zInput := clamp g.handZ (1/20) (7/20)
    let distance := mapLinear zInput (1/20) (7/20) 22 6
    let tp : Vec3 ℝ := ⟨distance * Real.sin azimuth, elevation,
      distance * Real.cos azimuth⟩
    let cp := lerpVec3 s.currentPos tp (delta * 3)
    { cameraPos := cp, currentPos := cp, targetPos := tp }
  else
    { cameraPos := s.cameraPos, currentPos := s.cameraPos,
      targetPos := s.targetPos }

/-- Run a sequence of rig ticks, each carrying the gesture signal and frame
delta seen by that tick. -/
noncomputable def gestureControllerRun :
    List (GestureSignal × ℝ) → CameraState → CameraState
  | [], s => s
  | (g, dt) :: ticks, s => gestureControllerRun ticks (gestureControllerStep s g dt)

/-- Claim C3: over any sequence of untracked ticks the camera position is
frozen in place (it equals its value at the moment tracking was lost), and
after at least one such tick the rig's `currentPos` is synchronized to the
live camera position, so resuming tracking does not jump. -/
theorem camera_freeze_on_loss (ticks : List (GestureSignal × ℝ))
    (s : CameraState) (h : ∀ td ∈ ticks, td.1.isTracking = false) :
    (gestureControllerRun ticks s).cameraPos = s.cameraPos ∧
      (ticks ≠ [] → (gestureControllerRun ticks s).currentPos = s.cameraPos) := by
  induction ticks generalizing s with
  | nil => exact ⟨rfl, fun hne => absurd rfl hne⟩
  | cons td rest ih =>
      obtain ⟨g, dt⟩ := td
      have hg : g.isTracking = false := h (g, dt) (List.mem_cons_self _ _)
      have hstep : gestureControllerStep s g dt =
          { cameraPos := s.cameraPos, currentPos := s.cameraPos,
            targetPos := s.targetPos } := by
        unfold gestureControllerStep
        rw [hg]
        simp
      have hrest : ∀ td' ∈ rest, td'.1.isTracking = false :=
        fun td' h' => h td' (List.mem_cons_of_mem _ h')
      have h2 := ih (gestureControllerStep s g dt) hrest
      rw [hstep] at h2
      refine ⟨?_, fun _ => ?_⟩
      · show (gestureControllerRun rest (gestureControllerStep s g dt)).cameraPos = _
        rw [hstep]
        exact h2.1
      · show (gestureControllerRun rest (gestureControllerStep s g dt)).currentPos = _
        rw [hstep]
        cases rest with
        | nil => rfl
        | cons td2 rest2 => exact h2.2 (by simp)

/-- The neutral untracked gesture signal. -/
noncomputable def untrackedSignal : GestureSignal :=
  { handX := 1/2, handY := 1/2, handZ := 1/2,
    isTracking := false, isHandOpen := false }

/-- The camera rig's initial state in `App.tsx`: `(0, 2, 14)`. -/
def cameraStart : CameraState :=
  { cameraPos := ⟨0, 2, 14⟩, currentPos := ⟨0, 2, 14⟩, targetPos := ⟨0, 2, 14⟩ }

/-- Witness for claim C3: two concrete untracked ticks leave the camera at
its initial position and sync `currentPos` to it. -/
theorem camera_freeze_on_loss_witness :
    (gestureControllerRun [(untrackedSignal, 1/60), (untrackedSignal, 1/30)]
        cameraStart).cameraPos = cameraStart.cameraPos ∧
      ([(untrackedSignal, 1/60), (untrackedSignal, 1/30)] ≠
          ([] : List (GestureSignal × ℝ)) →
        (gestureControllerRun [(untrackedSignal, 1/60), (untrackedSignal, 1/30)]
            cameraStart).currentPos = cameraStart.cameraPos) :=
  camera_freeze_on_loss [(untrackedSignal, 1/60), (untrackedSignal, 1/30)]
    cameraStart (by simp [untrackedSignal])

/-! ## Distribution generators (`getChaosPos`, `getTreePos`, `Foliage` in `ParticleTree`)

`getChaosPos` consumes three `Math.random()` draws (for `theta`, `phi` and
the radius), modelled here as explicit inputs `u1 u2 u3 ∈ [0, 1)`.
-/

/-- `Math.cbrt` restricted to nonnegative reals (every radius input in the
source lies in `[0, 1]`). -/
noncomputable def cbrt (x : ℝ) : ℝ := x ^ ((1 : ℝ) / 3)

/-- `getChaosPos` from `ParticleTree`: spherical angles from two uniform
draws and a cube-root volume-uniform radius over the hollow shell
`[ minRatio, 1] · scale`. -/
noncomputable def getChaosPos (scale minRatio u1 u2 u3 : ℝ) : Vec3 ℝ :=
  let theta := u1 * (Real.pi * 2)
  let phi := Real.arccos (2 * u2 - 1)
  let minVol := minRatio ^ 3
  let rRandom := u3 * (1 - minVol) + minVol
  let r := cbrt rRandom * scale
  ⟨r * Real.sin phi * Real.cos theta,
   r * Real.sin phi * Real.sin theta,
   r * Real.cos phi⟩

/-- Euclidean norm of an embedded `THREE.Vector3`. -/
noncomputable def vecNorm (v : Vec3 ℝ) : ℝ :=
  Real.sqrt (v.x ^ 2 + v.y ^ 2 + v.z ^ 2)

/-- Claim C4: the chaos-sphere sample has Euclidean norm exactly
`cbrt(U·(1−m³)+m³)·S`, and that norm always lies in `[m·S, S]`: the chaos
cloud is a hollow shell whenever `m > 0`. -/
theorem getChaosPos_radius (scale minRatio u1 u2 u3 : ℝ)
    (hS : 0 < scale) (hm0 : 0 ≤ minRatio) (hm1 : minRatio ≤ 1)
    (hu0 : 0 ≤ u3) (hu1 : u3 < 1) :
    vecNorm (getChaosPos scale minRatio u1 u2 u3) =
        cbrt (u3 * (1 - minRatio ^ 3) + minRatio ^ 3) * scale ∧
      minRatio * scale ≤ vecNorm (getChaosPos scale minRatio u1 u2 u3) ∧
      vecNorm (getChaosPos scale minRatio u1 u2 u3) ≤ scale := by
  set w : ℝ := u3 * (1 - minRatio ^ 3) + minRatio ^ 3 with hw
  have hm3 : (0 : ℝ) ≤ minRatio ^ 3 := pow_nonneg hm0 3
  have hm3le : minRatio ^ 3 ≤ 1 := pow_le_one₀ hm0 hm1
  have hw0 : 0 ≤ w := by nlinarith
  have hw1 : w ≤ 1 := by nlinarith
  have hwm : minRatio ^ 3 ≤ w := by nlinarith
  have hc0 : 0 ≤ cbrt w := Real.rpow_nonneg hw0 _
  have hr0 : 0 ≤ cbrt w * scale := mul_nonneg hc0 hS.le
  have hnorm : vecNorm (getChaosPos scale minRatio u1 u2 u3) = cbrt w * scale := by
    unfold vecNorm getChaosPos
    simp only
    rw [show ∀ r p t : ℝ,
        (r * Real.sin p * Real.cos t) ^ 2 + (r * Real.sin p * Real.sin t) ^ 2 +
          (r * Real.cos p) ^ 2 = r ^ 2 from ?_]
    · exact Real.sqrt_sq hr0
    · intro r p t
      have h1 := Real.sin_sq_add_cos_sq t
      have h2 := Real.sin_sq_add_cos_sq p
      linear_combination (r ^ 2 * Real.sin p ^ 2) * h1 + r ^ 2 * h2
  have hcm : minRatio ≤ cbrt w := by
    have hmm : cbrt (minRatio ^ 3) = minRatio := by
      unfold cbrt
      rw [← Real.rpow_natCast minRatio 3, ← Real.rpow_mul hm0]
      norm_num
    calc minRatio = cbrt (minRatio ^ 3) := hmm.symm
      _ ≤ cbrt w := Real.rpow_le_rpow hm3 hwm (by norm_num)
  have hc1 : cbrt w ≤ 1 := Real.rpow_le_one hw0 hw1 (by norm_num)
  refine ⟨hnorm, ?_, ?_⟩
  · rw [hnorm]
    exact mul_le_mul_of_nonneg_right hcm hS.le
  · rw [hnorm]
    calc cbrt w * scale ≤ 1 * scale := mul_le_mul_of_nonneg_right hc1 hS.le
      _ = scale := one_mul scale

/-- Witness for claim C4: at `S = 2`, `m = 1/2` and all three draws `0`, the
hypotheses hold and the sample's norm is the cube-root radius, inside
`[1, 2]`. -/
theorem getChaosPos_radius_witness :
    (0 : ℝ) < 2 ∧ (0 : ℝ) ≤ 1/2 ∧ (1 : ℝ)/2 ≤ 1 ∧ (0 : ℝ) ≤ 0 ∧ (0 : ℝ) < 1 ∧
      (vecNorm (getChaosPos 2 (1/2) 0 0 0) =
          cbrt (0 * (1 - (1/2 : ℝ) ^ 3) + (1/2 : ℝ) ^ 3) * 2 ∧
        (1/2 : ℝ) * 2 ≤ vecNorm (getChaosPos 2 (1/2) 0 0 0) ∧
        vecNorm (getChaosPos 2 (1/2) 0 0 0) ≤ 2) :=
  ⟨by norm_num, by norm_num, by norm_num, le_rfl, by norm_num,
    getChaosPos_radius 2 (1/2) 0 0 0 (by norm_num) (by norm_num)
      (by norm_num) le_rfl (by norm_num)⟩

/-! ## Foliage formed positions (`Foliage` in `ParticleTree`) -/

/-- `GOLDEN_ANGLE = Math.PI * (3 - Math.sqrt(5))`. -/
noncomputable def GOLDEN_ANGLE : ℝ := Real.pi * (3 - Real.sqrt 5)

/-- `TREE_HEIGHT = 7`. -/
def TREE_HEIGHT : ℝ := 7

/-- `TREE_WIDTH = 3.5`. -/
noncomputable def TREE_WIDTH : ℝ := 7/2

/-- `getTreePos` from `ParticleTree` (cone shell placement). -/
noncomputable def getTreePos (t theta height width : ℝ) : Vec3 ℝ :=
  let y := height * t - height / 2
  let radius := width * (1 - t)
  ⟨radius * Real.cos theta, y, radius * Real.sin theta⟩

/-- The foliage loop's height fraction for particle `i` of `count`:
`t = 1 - sqrt((i+1)/(count+1))`. -/
noncomputable def foliageT (i count : ℕ) : ℝ :=
  1 - Real.sqrt ((i + 1) / (count + 1))

/-- The foliage loop's spiral angle for particle `i`: `theta = i * GOLDEN_ANGLE`. -/
noncomputable def foliageTheta (i : ℕ) : ℝ := i * GOLDEN_ANGLE

/-- The formed (tree) position of foliage particle `i` of `count`, with the
three `Math.random()` jitter draws given as `jx jy jz` and
`noiseAmp = 0.05`. -/
noncomputable def foliageFormedPos (i count : ℕ) (jx jy jz : ℝ) : Vec3 ℝ :=
  let tPos := getTreePos (foliageT i count) (foliageTheta i) TREE_HEIGHT TREE_WIDTH
  let noiseAmp : ℝ := 1/20
  ⟨tPos.x + (jx - 1/2) * noiseAmp,
   tPos.y + (jy - 1/2) * noiseAmp,
   tPos.z + (jz - 1/2) * noiseAmp⟩

/-- Claim C5: the foliage formed position follows the phyllotaxis formula
`t = 1 − sqrt((i+1)/(N+1))`, `θ = i·π(3−√5)`, `y = 7t − 7/2`,
`radius = 3.5(1−t)`, `x = radius·cos θ`, `z = radius·sin θ`, with the only
deviation a per-axis jitter of magnitude at most `0.025`. -/
theorem foliageFormedPos_spec (i count : ℕ) (jx jy jz : ℝ)
    (hx0 : 0 ≤ jx) (hx1 : jx ≤ 1) (hy0 : 0 ≤ jy) (hy1 : jy ≤ 1)
    (hz0 : 0 ≤ jz) (hz1 : jz ≤ 1) :
    |(foliageFormedPos i count jx jy jz).x -
        (7/2 * (1 - (1 - Real.sqrt ((i + 1) / (count + 1))))) *
          Real.cos (i * (Real.pi * (3 - Real.sqrt 5)))| ≤ 1/40 ∧
    |(foliageFormedPos i count jx jy jz).y -
        (7 * (1 - Real.sqrt ((i + 1) / (count + 1))) - 7/2)| ≤ 1/40 ∧
    |(foliageFormedPos i count jx jy jz).z -
        (7/2 * (1 - (1 - Real.sqrt ((i + 1) / (count + 1))))) *
          Real.sin (i * (Real.pi * (3 - Real.sqrt 5)))| ≤ 1/40 := by
  have hb : ∀ j : ℝ, 0 ≤ j → j ≤ 1 → |(j - 1/2) * (1/20 : ℝ)| ≤ 1/40 := by
    intro j h0 h1
    rw [abs_le]
    constructor <;> nlinarith
  refine ⟨?_, ?_, ?_⟩
  · have he : (foliageFormedPos i count jx jy jz).x -
        (7/2 * (1 - (1 - Real.sqrt ((i + 1) / (count + 1))))) *
          Real.cos (i * (Real.pi * (3 - Real.sqrt 5))) = (jx - 1/2) * (1/20) := by
      simp only [foliageFormedPos, getTreePos, foliageT, foliageTheta,
        GOLDEN_ANGLE, TREE_HEIGHT, TREE_WIDTH]
      ring
    rw [he]
    exact hb jx hx0 hx1
  · have he : (foliageFormedPos i count jx jy jz).y -
        (7 * (1 - Real.sqrt ((i + 1) / (count + 1))) - 7/2) = (jy - 1/2) * (1/20) := by
      simp only [foliageFormedPos, getTreePos, foliageT, foliageTheta,
        GOLDEN_ANGLE, TREE_HEIGHT, TREE_WIDTH]
      ring
    rw [he]
    exact hb jy hy0 hy1
  · have he : (foliageFormedPos i count jx jy jz).z -
        (7/2 * (1 - (1 - Real.sqrt ((i + 1) / (count + 1))))) *
          Real.sin (i * (Real.pi * (3 - Real.sqrt 5))) = (jz - 1/2) * (1/20) := by
      simp only [foliageFormedPos, getTreePos, foliageT, foliageTheta,
        GOLDEN_ANGLE, TREE_HEIGHT, TREE_WIDTH]
      ring
    rw [he]
    exact hb jz hz0 hz1

/-- Witness for claim C5: particle `0` of the 9000-particle foliage group
with all three jitter draws at `1/2` sits exactly on the phyllotaxis
formula. -/
theorem foliageFormedPos_spec_witness :
    (0 : ℝ) ≤ 1/2 ∧ (1/2 : ℝ) ≤ 1 ∧
      |(foliageFormedPos 0 9000 (1/2) (1/2) (1/2)).y -
          (7 * (1 - Real.sqrt ((((0 : ℕ) : ℝ) + 1) / (((9000 : ℕ) : ℝ) + 1))) -
            7/2)| ≤ 1/40 :=
  ⟨by norm_num, by norm_num,
    (foliageFormedPos_spec 0 9000 (1/2) (1/2) (1/2) (by norm_num) (by norm_num)
      (by norm_num) (by norm_num) (by norm_num) (by norm_num)).2.1⟩

/-! ## Instance-level choreography (`GiftBox`, `OrnamentInstance`, `SinglePolaroid`)

Each per-frame update picks a threshold-gated lerp destination
`dest = progress > 0.5 ? chaos : target` and lerps the instance's current
position toward it with a per-kind rate (`2.5`, `3` and `2` respectively).
`SinglePolaroid` additionally switches its orientation policy at the same
threshold.
-/

/-- `GiftBox`'s per-frame position update. -/
noncomputable def giftBoxPosStep (progress : ℝ) (chaos target currentPos : Vec3 ℝ)
    (delta : ℝ) : Vec3 ℝ :=
  lerpVec3 currentPos (if progress > 1/2 then chaos else target) (delta * (5/2))

/-- `OrnamentInstance`'s per-frame position update. -/
noncomputable def ornamentPosStep (progress : ℝ) (chaos target currentPos : Vec3 ℝ)
    (delta : ℝ) : Vec3 ℝ :=
  lerpVec3 currentPos (if progress > 1/2 then chaos else target) (delta * 3)

/-- `SinglePolaroid`'s per-frame position update. -/
noncomputable def polaroidPosStep (progress : ℝ) (chaos target currentPos : Vec3 ℝ)
    (delta : ℝ) : Vec3 ℝ :=
  lerpVec3 currentPos (if progress > 1/2 then chaos else target) (delta * 2)

/-- `Math.atan2 y x` (JavaScript semantics on the reals; the signed-zero
distinction of floats does not exist here). -/
noncomputable def atan2 (y x : ℝ) : ℝ :=
  if 0 < x then Real.arctan (y / x)
  else if x < 0 then
    (if 0 ≤ y then Real.arctan (y / x) + Real.pi
     else Real.arctan (y / x) - Real.pi)
  else (if 0 < y then Real.pi / 2 else if y < 0 then -(Real.pi / 2) else 0)

/-- The two orientation policies a photo panel can be in after one frame:
upright facing outward from the tree axis (`rotation.set(0, angle, 0)`), or
facing the camera with the panel's fixed random tilt applied
(`lookAt(camera)` then `rotateX`/`rotateZ`). -/
inductive PolaroidPose where
  | outwardUpright (ex ey ez : ℝ)
  | towardCamera (tiltX tiltZ : ℝ)

/-- `SinglePolaroid`'s per-frame orientation update, as a function of the
morph progress, the panel's (already updated) position and its fixed random
tilt. -/
noncomputable def polaroidPoseStep (progress : ℝ) (pos : Vec3 ℝ)
    (tiltX tiltZ : ℝ) : PolaroidPose :=
  if progress > 1/2 then PolaroidPose.towardCamera tiltX tiltZ
  else PolaroidPose.outwardUpright 0 (atan2 pos.x pos.z) 0

/-- Claim C6: for gift boxes, ornament instances and photo panels the lerp
destination is the chaos position exactly when `progress > 0.5` and the
formed position otherwise — a threshold-gated destination, never a blend of
the two — and photo panels switch orientation policy at the same threshold:
at `progress ≤ 0.5` the rotation is `(0, atan2(x, z), 0)` facing outward, at
`progress > 0.5` the panel faces the camera plus its fixed random tilt. -/
theorem instance_threshold_gating (progress : ℝ)
    (chaos target currentPos : Vec3 ℝ) (delta tiltX tiltZ : ℝ) :
    (progress > 1/2 →
      giftBoxPosStep progress chaos target currentPos delta =
          lerpVec3 currentPos chaos (delta * (5/2)) ∧
        ornamentPosStep progress chaos target currentPos delta =
          lerpVec3 currentPos chaos (delta * 3) ∧
        polaroidPosStep progress chaos target currentPos delta =
          lerpVec3 currentPos chaos (delta * 2) ∧
        polaroidPoseStep progress currentPos tiltX tiltZ =
          PolaroidPose.towardCamera tiltX tiltZ) ∧
    (progress ≤ 1/2 →
      giftBoxPosStep progress chaos target currentPos delta =
          lerpVec3 currentPos target (delta * (5/2)) ∧
        ornamentPosStep progress chaos target currentPos delta =
          lerpVec3 currentPos target (delta * 3) ∧
        polaroidPosStep progress chaos target currentPos delta =
          lerpVec3 currentPos target (delta * 2) ∧
        polaroidPoseStep progress currentPos tiltX tiltZ =
          PolaroidPose.outwardUpright 0 (atan2 currentPos.x currentPos.z) 0) := by
  constructor
  · intro h
    refine ⟨?_, ?_, ?_, ?_⟩ <;>
      simp only [giftBoxPosStep, ornamentPosStep, polaroidPosStep,
        polaroidPoseStep] <;>
      rw [if_pos h]
  · intro h
    have hn : ¬ (progress > 1/2) := not_lt.mpr h
    refine ⟨?_, ?_, ?_, ?_⟩ <;>
      simp only [giftBoxPosStep, ornamentPosStep, polaroidPosStep,
        polaroidPoseStep] <;>
      rw [if_neg hn]

/-- Witness for claim C6: at `progress = 1` a concrete gift box heads for its
chaos position. -/
theorem instance_threshold_gating_witness :
    (1 : ℝ) > 1/2 ∧
      giftBoxPosStep 1 ⟨1, 2, 3⟩ ⟨4, 5, 6⟩ ⟨0, 0, 0⟩ (1/60) =
        lerpVec3 ⟨0, 0, 0⟩ ⟨1, 2, 3⟩ ((1/60) * (5/2)) :=
  ⟨by norm_num,
    ((instance_threshold_gating 1 ⟨1, 2, 3⟩ ⟨4, 5, 6⟩ ⟨0, 0, 0⟩ (1/60) 0 0).1
      (by norm_num)).1⟩

/-! ## Photo-slot binding (`Polaroids` and `SinglePolaroid`)

`Polaroids` creates 48 panel slots; slot `i` gets
`userPhotos.length > 0 ? userPhotos[i % userPhotos.length] : null`, and
`SinglePolaroid` renders the photo plane when a handle is present and a dark
placeholder plane otherwise.
-/

/-- The number of photo-panel slots created by `Polaroids`. -/
def polaroidCount : ℕ := 48

/-- The photo handle bound to slot `i`. -/
def photoForSlot {α : Type} (userPhotos : List α) (i : ℕ) : Option α :=
  if h : 0 < userPhotos.length then
    some (userPhotos.get ⟨i % userPhotos.length, Nat.mod_lt i h⟩)
  else none

/-- What a panel slot renders in its photo area. -/
inductive PanelFace (α : Type) where
  | photo (handle : α)
  | placeholder

/-- `SinglePolaroid`'s choice of photo area content for slot `i`. -/
def panelFace {α : Type} (userPhotos : List α) (i : ℕ) : PanelFace α :=
  match photoForSlot userPhotos i with
  | some u => PanelFace.photo u
  | none => PanelFace.placeholder

/-- Claim C8: for a non-empty photo list, panel slot `i < 48` is bound to
photo handle `i mod L`; for the empty list every slot renders the neutral
placeholder instead of failing. -/
theorem photo_slot_binding {α : Type} (userPhotos : List α) (i : ℕ)
    (hi : i < polaroidCount) :
    (∀ h : 0 < userPhotos.length,
        panelFace userPhotos i =
          PanelFace.photo
            (userPhotos.get ⟨i % userPhotos.length, Nat.mod_lt i h⟩)) ∧
      (userPhotos.length = 0 → panelFace userPhotos i = PanelFace.placeholder) := by
  constructor
  · intro h
    unfold panelFace photoForSlot
    rw [dif_pos h]
  · intro h
    unfold panelFace photoForSlot
    rw [dif_neg (by omega)]

/-- Witness for claim C8: with the two photo handles `[10, 20]`, slot `5` is
bound to handle `20 = [10, 20][5 % 2]`, and with no photos slot `5` renders
the placeholder. -/
theorem photo_slot_binding_witness :
    (5 : ℕ) < polaroidCount ∧
      panelFace [10, 20] 5 = PanelFace.photo 20 ∧
      panelFace ([] : List ℕ) 5 = PanelFace.placeholder :=
  ⟨by decide,
    (photo_slot_binding [10, 20] 5 (by decide)).1 (by decide),
    (photo_slot_binding ([] : List ℕ) 5 (by decide)).2 rfl⟩

end ChristmasTree
